import Mathlib

/-!
Shallow embedding of `devices_policy.go` from the cloudflare-go client
library, together with proofs about its pagination loop, its JSON field
(de)serialization and its error propagation.

JSON values are modelled by an explicit AST; Go's struct (un)marshalling
for the concrete struct types of the file is embedded field by field,
following the struct tags (`omitempty`, absent tags) of the source.
Collaborators that live outside the translated file (the `ResultInfo`
pagination metadata with its `Next`/`Done` methods, the `Response`
envelope, the transport) are modelled from the specification, as marked
on each definition.
-/

/-- A JSON value, the wire form that Go's `json.Marshal`/`json.Unmarshal`
produce and consume. Objects keep their fields in emission order. -/
inductive Json where
  | null : Json
  | bool (b : Bool) : Json
  | num (n : Int) : Json
  | str (s : String) : Json
  | arr (elems : List Json) : Json
  | obj (fields : List (String × Json)) : Json
deriving Repr

/-- The field names of a JSON object, in order; `[]` for non-objects. -/
def Json.keys : Json → List String
  | .obj fields => fields.map Prod.fst
  | _ => []

/-- Look up the first occurrence of a field name in a JSON object. -/
def Json.lookup : Json → String → Option Json
  | .obj fields, k => go fields k
  | _, _ => none
where
  go : List (String × Json) → String → Option Json
    | [], _ => none
    | (k', v) :: rest, k => if k = k' then some v else go rest k

/-- Go's `ServiceMode` is a named string type. -/
abbrev ServiceMode := String

/-- The `ServiceModeV2` struct: `mode` and `port`, both `omitempty`. -/
structure ServiceModeV2 where
  mode : ServiceMode
  port : Int
deriving Repr, DecidableEq

/-- Marshal `ServiceModeV2`: both fields carry `omitempty`, so the Go
zero values (empty string, 0) are left out of the object. -/
def ServiceModeV2.encode (m : ServiceModeV2) : Json :=
  Json.obj ((if m.mode = "" then [] else [("mode", Json.str m.mode)]) ++
    (if m.port = 0 then [] else [("port", Json.num m.port)]))

/-- The `DeviceSettingsPolicy` struct. Every field but `Default` is a
pointer (`Option` here) and none of the json tags carries `omitempty`.
`FallbackDomain` and `SplitTunnel` are defined outside the translated
file; their elements are modelled as raw JSON values. -/
structure DeviceSettingsPolicy where
  serviceModeV2 : Option ServiceModeV2
  disableAutoFallback : Option Bool
  fallbackDomains : Option (List Json)
  includeTunnels : Option (List Json)
  excludeTunnels : Option (List Json)
  gatewayUniqueID : Option String
  supportURL : Option String
  captivePortal : Option Int
  allowModeSwitch : Option Bool
  switchLocked : Option Bool
  allowUpdates : Option Bool
  autoConnect : Option Int
  allowedToLeave : Option Bool
  policyID : Option String
  enabled : Option Bool
  name : Option String
  matchExpr : Option String
  precedence : Option Int
  default : Bool
  excludeOfficeIps : Option Bool
  description : Option String
deriving Repr

/-- Marshal an optional (pointer) field without `omitempty`: a nil
pointer serializes as JSON `null`, a present value by `enc`. -/
def optJson (enc : α → Json) : Option α → Json
  | none => Json.null
  | some a => enc a

/-- Marshal an optional (pointer) field with `omitempty`: a nil pointer
is omitted from the object, a present value is emitted (even when it
points at a zero value, since the pointer itself is non-nil). -/
def optField (k : String) (enc : α → Json) : Option α → List (String × Json)
  | none => []
  | some a => [(k, enc a)]

/-- Marshal `DeviceSettingsPolicy`: all fields are emitted (no
`omitempty` in its tags), nil pointers as `null`, in struct order. -/
def DeviceSettingsPolicy.encode (p : DeviceSettingsPolicy) : Json :=
  Json.obj
    [("service_mode_v2", optJson ServiceModeV2.encode p.serviceModeV2),
     ("disable_auto_fallback", optJson Json.bool p.disableAutoFallback),
     ("fallback_domains", optJson Json.arr p.fallbackDomains),
     ("include", optJson Json.arr p.includeTunnels),
     ("exclude", optJson Json.arr p.excludeTunnels),
     ("gateway_unique_id", optJson Json.str p.gatewayUniqueID),
     ("support_url", optJson Json.str p.supportURL),
     ("captive_portal", optJson Json.num p.captivePortal),
     ("allow_mode_switch", optJson Json.bool p.allowModeSwitch),
     ("switch_locked", optJson Json.bool p.switchLocked),
     ("allow_updates", optJson Json.bool p.allowUpdates),
     ("auto_connect", optJson Json.num p.autoConnect),
     ("allowed_to_leave", optJson Json.bool p.allowedToLeave),
     ("policy_id", optJson Json.str p.policyID),
     ("enabled", optJson Json.bool p.enabled),
     ("name", optJson Json.str p.name),
     ("match", optJson Json.str p.matchExpr),
     ("precedence", optJson Json.num p.precedence),
     ("default", Json.bool p.default),
     ("exclude_office_ips", optJson Json.bool p.excludeOfficeIps),
     ("description", optJson Json.str p.description)]

/-- The `DeviceSettingsPolicyRequest` struct: the mutable subset of the
policy fields, all pointers, all `omitempty` except `ExcludeOfficeIps`
whose tag is plain `json:"exclude_office_ips"`. -/
structure DeviceSettingsPolicyRequest where
  disableAutoFallback : Option Bool
  captivePortal : Option Int
  allowModeSwitch : Option Bool
  switchLocked : Option Bool
  allowUpdates : Option Bool
  autoConnect : Option Int
  allowedToLeave : Option Bool
  supportURL : Option String
  serviceModeV2 : Option ServiceModeV2
  precedence : Option Int
  name : Option String
  matchExpr : Option String
  enabled : Option Bool
  excludeOfficeIps : Option Bool
  description : Option String
deriving Repr

/-- Marshal `DeviceSettingsPolicyRequest`: every `omitempty` field is
dropped when nil; `exclude_office_ips` has no `omitempty`, so a nil
pointer there is emitted as `null`. -/
def DeviceSettingsPolicyRequest.encode (r : DeviceSettingsPolicyRequest) : Json :=
  Json.obj
    (optField "disable_auto_fallback" Json.bool r.disableAutoFallback ++
     optField "captive_portal" Json.num r.captivePortal ++
     optField "allow_mode_switch" Json.bool r.allowModeSwitch ++
     optField "switch_locked" Json.bool r.switchLocked ++
     optField "allow_updates" Json.bool r.allowUpdates ++
     optField "auto_connect" Json.num r.autoConnect ++
     optField "allowed_to_leave" Json.bool r.allowedToLeave ++
     optField "support_url" Json.str r.supportURL ++
     optField "service_mode_v2" ServiceModeV2.encode r.serviceModeV2 ++
     optField "precedence" Json.num r.precedence ++
     optField "name" Json.str r.name ++
     optField "match" Json.str r.matchExpr ++
     optField "enabled" Json.bool r.enabled ++
     [("exclude_office_ips", optJson Json.bool r.excludeOfficeIps)] ++
     optField "description" Json.str r.description)

/-- Unmarshal a JSON value sitting in a `*bool` field: a missing key or
`null` leaves the nil pointer, a boolean sets it, anything else is a
type error. -/
def readOptBool : Option Json → Except String (Option Bool)
  | none => .ok none
  | some .null => .ok none
  | some (.bool b) => .ok (some b)
  | some _ => .error "cannot unmarshal into Go value of type *bool"

/-- Unmarshal a JSON value sitting in a `*int` field. -/
def readOptInt : Option Json → Except String (Option Int)
  | none => .ok none
  | some .null => .ok none
  | some (.num n) => .ok (some n)
  | some _ => .error "cannot unmarshal into Go value of type *int"

/-- Unmarshal a JSON value sitting in a `*string` field. -/
def readOptStr : Option Json → Except String (Option String)
  | none => .ok none
  | some .null => .ok none
  | some (.str s) => .ok (some s)
  | some _ => .error "cannot unmarshal into Go value of type *string"

/-- Unmarshal a JSON value sitting in a slice-pointer field such as
`*[]FallbackDomain`; the elements themselves are kept as raw JSON. -/
def readOptArr : Option Json → Except String (Option (List Json))
  | none => .ok none
  | some .null => .ok none
  | some (.arr xs) => .ok (some xs)
  | some _ => .error "cannot unmarshal into Go value of type *[]T"

/-- Unmarshal a JSON value sitting in a plain `bool` field: a missing
key or `null` leaves the zero value `false`. -/
def readBool : Option Json → Except String Bool
  | none => .ok false
  | some .null => .ok false
  | some (.bool b) => .ok b
  | some _ => .error "cannot unmarshal into Go value of type bool"

/-- Unmarshal a JSON value sitting in a plain string field. -/
def readStr : Option Json → Except String String
  | none => .ok ""
  | some .null => .ok ""
  | some (.str s) => .ok s
  | some _ => .error "cannot unmarshal into Go value of type string"

/-- Unmarshal a JSON value sitting in a plain int field. -/
def readInt : Option Json → Except String Int
  | none => .ok 0
  | some .null => .ok 0
  | some (.num n) => .ok n
  | some _ => .error "cannot unmarshal into Go value of type int"

/-- Unmarshal a JSON object into `ServiceModeV2` (fields `mode`, `port`;
missing keys keep the Go zero values). -/
def ServiceModeV2.decode (j : Json) : Except String ServiceModeV2 :=
  match j with
  | .obj _ => do
    let mode ← readStr (j.lookup "mode")
    let port ← readInt (j.lookup "port")
    pure { mode := mode, port := port }
  | _ => .error "cannot unmarshal into Go value of type ServiceModeV2"

/-- Unmarshal a JSON value sitting in a `*ServiceModeV2` field. -/
def readOptServiceModeV2 : Option Json → Except String (Option ServiceModeV2)
  | none => .ok none
  | some .null => .ok none
  | some j => do
    let m ← ServiceModeV2.decode j
    pure (some m)

/-- Unmarshal a JSON value into `DeviceSettingsPolicy`, field by field
along the json tags of the struct; a non-object payload is a type
error, unknown keys are ignored. -/
def DeviceSettingsPolicy.decode (j : Json) : Except String DeviceSettingsPolicy :=
  match j with
  | .obj _ => do
    let serviceModeV2 ← readOptServiceModeV2 (j.lookup "service_mode_v2")
    let disableAutoFallback ← readOptBool (j.lookup "disable_auto_fallback")
    let fallbackDomains ← readOptArr (j.lookup "fallback_domains")
    let includeTunnels ← readOptArr (j.lookup "include")
    let excludeTunnels ← readOptArr (j.lookup "exclude")
    let gatewayUniqueID ← readOptStr (j.lookup "gateway_unique_id")
    let supportURL ← readOptStr (j.lookup "support_url")
    let captivePortal ← readOptInt (j.lookup "captive_portal")
    let allowModeSwitch ← readOptBool (j.lookup "allow_mode_switch")
    let switchLocked ← readOptBool (j.lookup "switch_locked")
    let allowUpdates ← readOptBool (j.lookup "allow_updates")
    let autoConnect ← readOptInt (j.lookup "auto_connect")
    let allowedToLeave ← readOptBool (j.lookup "allowed_to_leave")
    let policyID ← readOptStr (j.lookup "policy_id")
    let enabled ← readOptBool (j.lookup "enabled")
    let name ← readOptStr (j.lookup "name")
    let matchExpr ← readOptStr (j.lookup "match")
    let precedence ← readOptInt (j.lookup "precedence")
    let defaultPolicy ← readBool (j.lookup "default")
    let excludeOfficeIps ← readOptBool (j.lookup "exclude_office_ips")
    let description ← readOptStr (j.lookup "description")
    pure { serviceModeV2 := serviceModeV2,
           disableAutoFallback := disableAutoFallback,
           fallbackDomains := fallbackDomains,
           includeTunnels := includeTunnels,
           excludeTunnels := excludeTunnels,
           gatewayUniqueID := gatewayUniqueID,
           supportURL := supportURL,
           captivePortal := captivePortal,
           allowModeSwitch := allowModeSwitch,
           switchLocked := switchLocked,
           allowUpdates := allowUpdates,
           autoConnect := autoConnect,
           allowedToLeave := allowedToLeave,
           policyID := policyID,
           enabled := enabled,
           name := name,
           matchExpr := matchExpr,
           precedence := precedence,
           default := defaultPolicy,
           excludeOfficeIps := excludeOfficeIps,
           description := description }
  | _ => .error "cannot unmarshal into Go value of type DeviceSettingsPolicy"

/-- Modelled from the spec: the `ResultInfo` pagination metadata struct
is defined outside the translated file; per the spec's envelope
description it carries `page`, `per_page`, `count`, `total_count` and
`total_pages`. -/
structure ResultInfo where
  page : Int
  per_page : Int
  count : Int
  total_count : Int
  total_pages : Int
deriving Repr, DecidableEq

/-- Modelled from the spec: `ResultInfo.Next` advances the cursor to the
following page ("next page = current page + 1"), leaving the other
metadata untouched. -/
def ResultInfo.Next (ri : ResultInfo) : ResultInfo :=
  { ri with page := ri.page + 1 }

/-- Modelled from the spec: `ResultInfo.Done` recognizes the terminal
cursor — the advanced page number has passed `total_pages` ("next page =
current page + 1 if current page < total pages, else terminal"). -/
def ResultInfo.Done (ri : ResultInfo) : Bool :=
  ri.total_pages < ri.page

/-- Modelled from the spec: the shared `Response` envelope carries a
success indicator and an error list (errors kept as raw JSON, their
struct being outside the translated file). -/
structure Response where
  success : Bool
  errors : List Json
deriving Repr

/-- Unmarshal the shared envelope fields (`success`, `errors`). -/
def Response.decode (j : Json) : Except String Response := do
  let success ← readBool (j.lookup "success")
  let errors ← readOptArr (j.lookup "errors")
  pure { success := success, errors := errors.getD [] }

/-- The Go zero value of `Response`. -/
def Response.zero : Response := { success := false, errors := [] }

/-- The `Enabled` struct (`json:"enabled"`). -/
structure Enabled where
  enabled : Bool
deriving Repr, DecidableEq

/-- The `DeviceClientCertificatesZone` response struct: the embedded
envelope plus a `Result Enabled` field (no json tag, so the JSON key
`result` is matched case-insensitively against the field name). -/
structure DeviceClientCertificatesZone where
  response : Response
  result : Enabled
deriving Repr

/-- Unmarshal `DeviceClientCertificatesZone`. -/
def DeviceClientCertificatesZone.decode (j : Json) :
    Except String DeviceClientCertificatesZone :=
  match j with
  | .obj _ => do
    let response ← Response.decode j
    let enabled ← match j.lookup "result" with
      | none => pure { enabled := false }
      | some .null => pure { enabled := false }
      | some (.obj fields) => do
        let b ← readBool ((Json.obj fields).lookup "enabled")
        pure ({ enabled := b } : Enabled)
      | some _ => .error "cannot unmarshal into Go value of type Enabled"
    pure { response := response, result := enabled }
  | _ => .error "cannot unmarshal into Go value of type DeviceClientCertificatesZone"

/-- The Go zero value of `DeviceClientCertificatesZone`, as initialized
by `result := DeviceClientCertificatesZone{}` before the request. -/
def DeviceClientCertificatesZone.zero : DeviceClientCertificatesZone :=
  { response := Response.zero, result := { enabled := false } }

/-- The Go zero value of `DeviceSettingsPolicy`: nil pointers and a
false `Default`. -/
def DeviceSettingsPolicy.zero : DeviceSettingsPolicy :=
  { serviceModeV2 := none, disableAutoFallback := none,
    fallbackDomains := none, includeTunnels := none, excludeTunnels := none,
    gatewayUniqueID := none, supportURL := none, captivePortal := none,
    allowModeSwitch := none, switchLocked := none, allowUpdates := none,
    autoConnect := none, allowedToLeave := none, policyID := none,
    enabled := none, name := none, matchExpr := none, precedence := none,
    default := false, excludeOfficeIps := none, description := none }

/-- The `DeviceSettingsPolicyResponse` struct: envelope plus one policy
(field `Result`, no json tag, matched against the key `result`). -/
structure DeviceSettingsPolicyResponse where
  response : Response
  result : DeviceSettingsPolicy
deriving Repr

/-- Unmarshal `DeviceSettingsPolicyResponse`. -/
def DeviceSettingsPolicyResponse.decode (j : Json) :
    Except String DeviceSettingsPolicyResponse :=
  match j with
  | .obj _ => do
    let response ← Response.decode j
    let result ← match j.lookup "result" with
      | none => pure DeviceSettingsPolicy.zero
      | some .null => pure DeviceSettingsPolicy.zero
      | some v => DeviceSettingsPolicy.decode v
    pure { response := response, result := result }
  | _ => .error "cannot unmarshal into Go value of type DeviceSettingsPolicyResponse"

/-- The Go zero value of `DeviceSettingsPolicyResponse`. -/
def DeviceSettingsPolicyResponse.zero : DeviceSettingsPolicyResponse :=
  { response := Response.zero, result := DeviceSettingsPolicy.zero }

/-- The `DeleteDeviceSettingsPolicyResponse` struct: envelope plus the
remaining policies. -/
structure DeleteDeviceSettingsPolicyResponse where
  response : Response
  result : List DeviceSettingsPolicy
deriving Repr

/-- Unmarshal `DeleteDeviceSettingsPolicyResponse`. -/
def DeleteDeviceSettingsPolicyResponse.decode (j : Json) :
    Except String DeleteDeviceSettingsPolicyResponse :=
  match j with
  | .obj _ => do
    let response ← Response.decode j
    let result ← match j.lookup "result" with
      | none => pure ([] : List DeviceSettingsPolicy)
      | some .null => pure ([] : List DeviceSettingsPolicy)
      | some (.arr xs) => xs.mapM DeviceSettingsPolicy.decode
      | some _ => .error "cannot unmarshal into Go value of type []DeviceSettingsPolicy"
    pure { response := response, result := result }
  | _ => .error "cannot unmarshal into Go value of type DeleteDeviceSettingsPolicyResponse"

/-- The Go zero value of `DeleteDeviceSettingsPolicyResponse`. -/
def DeleteDeviceSettingsPolicyResponse.zero : DeleteDeviceSettingsPolicyResponse :=
  { response := Response.zero, result := [] }

/-- The error value an operation returns: either the transport error
passed through unchanged, or a decode error wrapped as
`fmt.Errorf("%s: %w", errUnmarshalError, err)`. -/
inductive ApiError where
  | transport (e : String) : ApiError
  | unmarshal (e : String) : ApiError
deriving Repr, DecidableEq

/-- Modelled from the spec: the transport collaborator
(`makeRequestContext`) lives outside the translated file; its outcome
for the one request an operation issues is either a transport error or
response bytes, which are modelled as an already-parsed JSON value. -/
abbrev TransportOutcome := Except String Json

/-- The shared request/decode skeleton of every single-resource
operation: a zero-initialized result, an early return passing the
transport error through, a decode-error return wrapping the error, and
the decoded value on success. -/
def singleRequest (zero : α) (decode : Json → Except String α)
    (res : TransportOutcome) : α × Option ApiError :=
  match res with
  | .error e => (zero, some (ApiError.transport e))
  | .ok bytes =>
    match decode bytes with
    | .error e => (zero, some (ApiError.unmarshal e))
    | .ok r => (r, none)

/-- `UpdateDeviceClientCertificatesZone` (PATCH
`/zones/{zoneID}/devices/policy/certificates` with body
`Enabled{enable}`), given the transport outcome of that request. -/
def UpdateDeviceClientCertificatesZone (res : TransportOutcome) :
    DeviceClientCertificatesZone × Option ApiError :=
  singleRequest DeviceClientCertificatesZone.zero
    DeviceClientCertificatesZone.decode res

/-- `GetDeviceClientCertificatesZone` (GET
`/zones/{zoneID}/devices/policy/certificates`). -/
def GetDeviceClientCertificatesZone (res : TransportOutcome) :
    DeviceClientCertificatesZone × Option ApiError :=
  singleRequest DeviceClientCertificatesZone.zero
    DeviceClientCertificatesZone.decode res

/-- `CreateDeviceSettingsPolicy` (POST
`/accounts/{accountID}/devices/policy` with a request body). -/
def CreateDeviceSettingsPolicy (res : TransportOutcome) :
    DeviceSettingsPolicyResponse × Option ApiError :=
  singleRequest DeviceSettingsPolicyResponse.zero
    DeviceSettingsPolicyResponse.decode res

/-- `UpdateDefaultDeviceSettingsPolicy` (PATCH
`/accounts/{accountID}/devices/policy`). -/
def UpdateDefaultDeviceSettingsPolicy (res : TransportOutcome) :
    DeviceSettingsPolicyResponse × Option ApiError :=
  singleRequest DeviceSettingsPolicyResponse.zero
    DeviceSettingsPolicyResponse.decode res

/-- `UpdateDeviceSettingsPolicy` (PATCH
`/accounts/{accountID}/devices/policy/{policyID}`). -/
def UpdateDeviceSettingsPolicy (res : TransportOutcome) :
    DeviceSettingsPolicyResponse × Option ApiError :=
  singleRequest DeviceSettingsPolicyResponse.zero
    DeviceSettingsPolicyResponse.decode res

/-- `DeleteDeviceSettingsPolicy` (DELETE
`/accounts/{accountID}/devices/policy/{policyID}`). -/
def DeleteDeviceSettingsPolicy (res : TransportOutcome) :
    DeleteDeviceSettingsPolicyResponse × Option ApiError :=
  singleRequest DeleteDeviceSettingsPolicyResponse.zero
    DeleteDeviceSettingsPolicyResponse.decode res

/-- `GetDefaultDeviceSettingsPolicy` (GET
`/accounts/{accountID}/devices/policy`). -/
def GetDefaultDeviceSettingsPolicy (res : TransportOutcome) :
    DeviceSettingsPolicyResponse × Option ApiError :=
  singleRequest DeviceSettingsPolicyResponse.zero
    DeviceSettingsPolicyResponse.decode res

/-- `GetDeviceSettingsPolicy` (GET
`/accounts/{accountID}/devices/policy/{policyID}`). -/
def GetDeviceSettingsPolicy (res : TransportOutcome) :
    DeviceSettingsPolicyResponse × Option ApiError :=
  singleRequest DeviceSettingsPolicyResponse.zero
    DeviceSettingsPolicyResponse.decode res

/-- The `ListDeviceSettingsPoliciesParams` struct: it embeds a
`ResultInfo` whose fields are promoted (`params.Page`,
`params.PerPage`). -/
structure ListDeviceSettingsPoliciesParams where
  resultInfo : ResultInfo
deriving Repr, DecidableEq

/-- The `ListDeviceSettingsPoliciesResponse` struct: envelope,
`result_info`, and the page's policies. -/
structure ListDeviceSettingsPoliciesResponse where
  response : Response
  result_info : ResultInfo
  result : List DeviceSettingsPolicy
deriving Repr

/-- The combined outcome of one page fetch (transport call plus
unmarshal of the bytes into `ListDeviceSettingsPoliciesResponse`). -/
inductive FetchOutcome where
  | transportErr (e : String) : FetchOutcome
  | decodeErr (e : String) : FetchOutcome
  | pageOk (r : ListDeviceSettingsPoliciesResponse) : FetchOutcome

/-- The constant `listDeviceSettingsPoliciesDefaultPageSize`. -/
def listDeviceSettingsPoliciesDefaultPageSize : Int := 20

/-- Modelled from the spec: the list endpoint's base path,
`/{accounts}/{accountID}/devices/policies` (`buildURI` and
`AccountRouteRoot` live outside the translated file). -/
def listURI (accountID : String) : String :=
  "/accounts/" ++ accountID ++ "/devices/policies"

/-- The `for` loop of `ListDeviceSettingsPolicies`: fetch a page with
the current params, abort on transport or decode errors, append the
page's policies, remember its `result_info`, overwrite the params'
embedded `ResultInfo` with its `Next()`, and stop when the new cursor is
`Done()` or auto-pagination is off. `fuel` bounds the number of
iterations (the Go loop can run unboundedly on adversarial metadata);
`none` means the bound was hit. The returned trace lists the params of
every issued request in order. -/
def listLoop (fetch : ListDeviceSettingsPoliciesParams → FetchOutcome)
    (autoPaginate : Bool) :
    Nat → ListDeviceSettingsPoliciesParams → List DeviceSettingsPolicy →
    Option (List ListDeviceSettingsPoliciesParams ×
      Except ApiError (List DeviceSettingsPolicy × ResultInfo))
  | 0, _, _ => none
  | fuel + 1, params, acc =>
    match fetch params with
    | .transportErr e => some ([params], .error (ApiError.transport e))
    | .decodeErr e => some ([params], .error (ApiError.unmarshal e))
    | .pageOk r =>
      if r.result_info.Next.Done || !autoPaginate then
        some ([params], .ok (acc ++ r.result, r.result_info))
      else
        match listLoop fetch autoPaginate fuel { resultInfo := r.result_info.Next }
            (acc ++ r.result) with
        | none => none
        | some (trace, out) => some (params :: trace, out)

/-- The auto-pagination decision of `ListDeviceSettingsPolicies`:
`autoPaginate := true`, then set to `false` when `params.PerPage >= 1 ||
params.Page >= 1`. -/
def autoPaginateFor (params : ListDeviceSettingsPoliciesParams) : Bool :=
  if 1 ≤ params.resultInfo.per_page ∨ 1 ≤ params.resultInfo.page then false
  else true

/-- The `per_page` defaulting of `ListDeviceSettingsPolicies`: when
`params.PerPage < 1`, it is set to the default page size 20. -/
def initialListParams (params : ListDeviceSettingsPoliciesParams) :
    ListDeviceSettingsPoliciesParams :=
  if params.resultInfo.per_page < 1 then
    { resultInfo :=
        { params.resultInfo with
            per_page := listDeviceSettingsPoliciesDefaultPageSize } }
  else params

/-- `ListDeviceSettingsPolicies`: decide auto-pagination, default
`per_page`, then run the fetch loop starting from an empty accumulator.
The server collaborator is a function from the request (base URI and
current params) to the fetch outcome. -/
def ListDeviceSettingsPolicies
    (server : String → ListDeviceSettingsPoliciesParams → FetchOutcome)
    (accountID : String) (params : ListDeviceSettingsPoliciesParams)
    (fuel : Nat) :
    Option (List ListDeviceSettingsPoliciesParams ×
      Except ApiError (List DeviceSettingsPolicy × ResultInfo)) :=
  listLoop (server (listURI accountID)) (autoPaginateFor params) fuel
    (initialListParams params) []

/-- The items one request contributes: the `result` list of the decoded
response, nothing on a failed fetch. -/
def pageItems (fetch : ListDeviceSettingsPoliciesParams → FetchOutcome)
    (p : ListDeviceSettingsPoliciesParams) : List DeviceSettingsPolicy :=
  match fetch p with
  | .pageOk r => r.result
  | _ => []

/-- A caller-supplied params value with `Page` and `PerPage` set. -/
def singlePageParams : ListDeviceSettingsPoliciesParams :=
  { resultInfo :=
      { page := 1, per_page := 5, count := 0, total_count := 0, total_pages := 0 } }

/-- A caller-supplied params value with neither `Page` nor `PerPage`
set (the Go zero value). -/
def autoParams : ListDeviceSettingsPoliciesParams :=
  { resultInfo :=
      { page := 0, per_page := 0, count := 0, total_count := 0, total_pages := 0 } }

/-- A server that answers every request with the same single page. -/
def constantServer : String → ListDeviceSettingsPoliciesParams → FetchOutcome :=
  fun _ _ => FetchOutcome.pageOk
    { response := { success := true, errors := [] },
      result_info :=
        { page := 1, per_page := 5, count := 0, total_count := 0, total_pages := 7 },
      result := [] }

/-- A server exposing two pages of one policy each
(`total_pages = 2`). -/
def twoPageServer : String → ListDeviceSettingsPoliciesParams → FetchOutcome :=
  fun _ p =>
    if p.resultInfo.page ≤ 1 then
      FetchOutcome.pageOk
        { response := { success := true, errors := [] },
          result_info :=
            { page := 1, per_page := 20, count := 1, total_count := 2, total_pages := 2 },
          result := [DeviceSettingsPolicy.zero] }
    else
      FetchOutcome.pageOk
        { response := { success := true, errors := [] },
          result_info :=
            { page := 2, per_page := 20, count := 1, total_count := 2, total_pages := 2 },
          result := [DeviceSettingsPolicy.zero] }

/-- A server whose first page announces `total_pages = 3` but whose
second page fails at the transport layer. -/
def failingServer : String → ListDeviceSettingsPoliciesParams → FetchOutcome :=
  fun _ p =>
    if p.resultInfo.page ≤ 1 then
      FetchOutcome.pageOk
        { response := { success := true, errors := [] },
          result_info :=
            { page := 1, per_page := 20, count := 1, total_count := 3, total_pages := 3 },
          result := [DeviceSettingsPolicy.zero] }
    else
      FetchOutcome.transportErr "connection reset"

/-- A server whose first page is empty but non-terminal
(`total_pages = 2`). -/
def emptyPageServer : String → ListDeviceSettingsPoliciesParams → FetchOutcome :=
  fun _ p =>
    if p.resultInfo.page ≤ 1 then
      FetchOutcome.pageOk
        { response := { success := true, errors := [] },
          result_info :=
            { page := 1, per_page := 20, count := 0, total_count := 0, total_pages := 2 },
          result := [] }
    else
      FetchOutcome.pageOk
        { response := { success := true, errors := [] },
          result_info :=
            { page := 2, per_page := 20, count := 0, total_count := 0, total_pages := 2 },
          result := [] }

/-- A request setting only `name` and `enabled`, every other pointer
nil. -/
def nameEnabledOnlyRequest : DeviceSettingsPolicyRequest :=
  { disableAutoFallback := none, captivePortal := none,
    allowModeSwitch := none, switchLocked := none, allowUpdates := none,
    autoConnect := none, allowedToLeave := none, supportURL := none,
    serviceModeV2 := none, precedence := none, name := some "test",
    matchExpr := none, enabled := some true, excludeOfficeIps := none,
    description := none }

/-- A full policy JSON payload with every field present. -/
def fullPolicyPayload : Json :=
  Json.obj
    [("service_mode_v2", Json.obj [("mode", Json.str "warp"), ("port", Json.num 3)]),
     ("disable_auto_fallback", Json.bool true),
     ("fallback_domains", Json.arr [Json.obj [("suffix", Json.str "internal")]]),
     ("include", Json.arr [Json.obj [("address", Json.str "10.0.0.0/8")]]),
     ("exclude", Json.arr [Json.obj [("address", Json.str "192.168.0.0/16")]]),
     ("gateway_unique_id", Json.str "gw-1"),
     ("support_url", Json.str "https://help.example.com"),
     ("captive_portal", Json.num 180),
     ("allow_mode_switch", Json.bool false),
     ("switch_locked", Json.bool true),
     ("allow_updates", Json.bool false),
     ("auto_connect", Json.num 900),
     ("allowed_to_leave", Json.bool true),
     ("policy_id", Json.str "policy-1"),
     ("enabled", Json.bool true),
     ("name", Json.str "test policy"),
     ("match", Json.str "identity.email == taken"),
     ("precedence", Json.num 10),
     ("default", Json.bool false),
     ("exclude_office_ips", Json.bool false),
     ("description", Json.str "a policy")]

/-- The struct value `fullPolicyPayload` decodes to. -/
def fullPolicy : DeviceSettingsPolicy :=
  { serviceModeV2 := some { mode := "warp", port := 3 },
    disableAutoFallback := some true,
    fallbackDomains := some [Json.obj [("suffix", Json.str "internal")]],
    includeTunnels := some [Json.obj [("address", Json.str "10.0.0.0/8")]],
    excludeTunnels := some [Json.obj [("address", Json.str "192.168.0.0/16")]],
    gatewayUniqueID := some "gw-1",
    supportURL := some "https://help.example.com",
    captivePortal := some 180,
    allowModeSwitch := some false,
    switchLocked := some true,
    allowUpdates := some false,
    autoConnect := some 900,
    allowedToLeave := some true,
    policyID := some "policy-1",
    enabled := some true,
    name := some "test policy",
    matchExpr := some "identity.email == taken",
    precedence := some 10,
    default := false,
    excludeOfficeIps := some false,
    description := some "a policy" }

/-- The params of the first auto-pagination request: the zero params
with per_page defaulted to 20. -/
def autoFirstParams : ListDeviceSettingsPoliciesParams :=
  { resultInfo :=
      { page := 0, per_page := 20, count := 0, total_count := 0, total_pages := 0 } }

/-- The params of the second request against `twoPageServer`: page 1's
`result_info` advanced by `Next()`. -/
def twoPageSecondParams : ListDeviceSettingsPoliciesParams :=
  { resultInfo :=
      { page := 2, per_page := 20, count := 1, total_count := 2, total_pages := 2 } }

/-- The params of the second request against `failingServer`. -/
def failingSecondParams : ListDeviceSettingsPoliciesParams :=
  { resultInfo :=
      { page := 2, per_page := 20, count := 1, total_count := 3, total_pages := 3 } }

/-- The params of the second request against `emptyPageServer`. -/
def emptySecondParams : ListDeviceSettingsPoliciesParams :=
  { resultInfo :=
      { page := 2, per_page := 20, count := 0, total_count := 0, total_pages := 2 } }

/-- A caller-supplied params value with `per_page` set to the negative
value -5 and `page` unset. -/
def negPerPageParams : ListDeviceSettingsPoliciesParams :=
  { resultInfo :=
      { page := 0, per_page := -5, count := 0, total_count := 0, total_pages := 0 } }

/-- A completed loop run issued at least one request. -/
lemma listLoop_trace_ne_nil {fetch ap fuel params acc trace out}
    (h : listLoop fetch ap fuel params acc = some (trace, out)) : trace ≠ [] := by
  induction fuel generalizing params acc trace out with
  | zero => simp [listLoop] at h
  | succ n ih =>
    rw [listLoop] at h
    split at h
    · simp only [Option.some.injEq, Prod.mk.injEq] at h
      simp [← h.1]
    · simp only [Option.some.injEq, Prod.mk.injEq] at h
      simp [← h.1]
    · split at h
      · simp only [Option.some.injEq, Prod.mk.injEq] at h
        simp [← h.1]
      · split at h
        · simp at h
        · simp only [Option.some.injEq, Prod.mk.injEq] at h
          simp [← h.1]

/-- The first request of a loop run uses the starting params. -/
lemma listLoop_head {fetch ap fuel params acc trace out}
    (h : listLoop fetch ap fuel params acc = some (trace, out)) :
    trace.head? = some params := by
  induction fuel generalizing params acc trace out with
  | zero => simp [listLoop] at h
  | succ n ih =>
    rw [listLoop] at h
    split at h
    · simp only [Option.some.injEq, Prod.mk.injEq] at h
      simp [← h.1]
    · simp only [Option.some.injEq, Prod.mk.injEq] at h
      simp [← h.1]
    · split at h
      · simp only [Option.some.injEq, Prod.mk.injEq] at h
        simp [← h.1]
      · split at h
        · simp at h
        · simp only [Option.some.injEq, Prod.mk.injEq] at h
          simp [← h.1]

/-- On a successful run the aggregated list is the accumulator followed
by the concatenation, in request order, of each fetched page's items. -/
lemma listLoop_items {fetch ap fuel params acc trace pols last}
    (h : listLoop fetch ap fuel params acc = some (trace, .ok (pols, last))) :
    pols = acc ++ (trace.map (pageItems fetch)).flatten := by
  induction fuel generalizing params acc trace pols last with
  | zero => simp [listLoop] at h
  | succ n ih =>
    rw [listLoop] at h
    split at h
    · simp at h
    · simp at h
    · rename_i r heq
      split at h
      · simp only [Option.some.injEq, Prod.mk.injEq, Except.ok.injEq] at h
        obtain ⟨h1, h2, h3⟩ := h
        subst h1
        simp [← h2, pageItems, heq]
      · split at h
        · simp at h
        · rename_i tr o heq2
          simp only [Option.some.injEq, Prod.mk.injEq] at h
          obtain ⟨h1, h2⟩ := h
          subst h1
          rw [h2] at heq2
          have := ih heq2
          simp [this, pageItems, heq]

/-- On a successful run the final metadata is the `result_info` of the
response to the last issued request, and that response satisfied the
loop's stop condition. -/
lemma listLoop_last_ok {fetch ap fuel params acc trace pols last}
    (h : listLoop fetch ap fuel params acc = some (trace, .ok (pols, last))) :
    ∃ p r, trace.getLast? = some p ∧ fetch p = .pageOk r ∧
      last = r.result_info ∧ (r.result_info.Next.Done || !ap) = true := by
  induction fuel generalizing params acc trace pols last with
  | zero => simp [listLoop] at h
  | succ n ih =>
    rw [listLoop] at h
    split at h
    · simp at h
    · simp at h
    · rename_i r heq
      split at h
      · rename_i hcond
        simp only [Option.some.injEq, Prod.mk.injEq, Except.ok.injEq] at h
        obtain ⟨h1, h2, h3⟩ := h
        subst h1
        exact ⟨params, r, rfl, heq, h3.symm, hcond⟩
      · split at h
        · simp at h
        · rename_i tr o heq2
          simp only [Option.some.injEq, Prod.mk.injEq] at h
          obtain ⟨h1, h2⟩ := h
          subst h1
          rw [h2] at heq2
          obtain ⟨p, r', hlast, hf, hl, hc⟩ := ih heq2
          refine ⟨p, r', ?_, hf, hl, hc⟩
          have hne := listLoop_trace_ne_nil heq2
          rw [← hlast]
          cases tr with
          | nil => exact absurd rfl hne
          | cons b t => exact List.getLast?_cons_cons

/-- A run that returns an error stops at the failing request: the error
is the transport error passed through, or the decode error wrapped as
an unmarshal error, of the last issued request. -/
lemma listLoop_error {fetch ap fuel params acc trace e}
    (h : listLoop fetch ap fuel params acc = some (trace, .error e)) :
    ∃ p, trace.getLast? = some p ∧
      ((∃ s, fetch p = .transportErr s ∧ e = ApiError.transport s) ∨
       (∃ s, fetch p = .decodeErr s ∧ e = ApiError.unmarshal s)) := by
  induction fuel generalizing params acc trace e with
  | zero => simp [listLoop] at h
  | succ n ih =>
    rw [listLoop] at h
    split at h
    · rename_i s heq
      simp only [Option.some.injEq, Prod.mk.injEq, Except.error.injEq] at h
      obtain ⟨h1, h2⟩ := h
      subst h1
      exact ⟨params, rfl, Or.inl ⟨s, heq, h2.symm⟩⟩
    · rename_i s heq
      simp only [Option.some.injEq, Prod.mk.injEq, Except.error.injEq] at h
      obtain ⟨h1, h2⟩ := h
      subst h1
      exact ⟨params, rfl, Or.inr ⟨s, heq, h2.symm⟩⟩
    · rename_i r heq
      split at h
      · simp at h
      · split at h
        · simp at h
        · rename_i tr o heq2
          simp only [Option.some.injEq, Prod.mk.injEq] at h
          obtain ⟨h1, h2⟩ := h
          subst h1
          rw [h2] at heq2
          obtain ⟨p, hlast, hcase⟩ := ih heq2
          refine ⟨p, ?_, hcase⟩
          have hne := listLoop_trace_ne_nil heq2
          rw [← hlast]
          cases tr with
          | nil => exact absurd rfl hne
          | cons b t => exact List.getLast?_cons_cons

/-- Every request after the first is the previous response's
`result_info` advanced by `Next()`, written over the whole embedded
`ResultInfo` of the params; and a follow-up request only happens with
auto-pagination on and a non-terminal cursor. -/
lemma listLoop_chain {fetch ap fuel params acc trace out}
    (h : listLoop fetch ap fuel params acc = some (trace, out)) :
    ∀ i (hi : i + 1 < trace.length), ∃ r,
      fetch (trace.get ⟨i, Nat.lt_of_succ_lt hi⟩) = .pageOk r ∧
      trace.get ⟨i + 1, hi⟩ = { resultInfo := r.result_info.Next } ∧
      ap = true ∧ r.result_info.Next.Done = false := by
  induction fuel generalizing params acc trace out with
  | zero => simp [listLoop] at h
  | succ n ih =>
    rw [listLoop] at h
    split at h
    · simp only [Option.some.injEq, Prod.mk.injEq] at h
      obtain ⟨h1, h2⟩ := h
      subst h1
      intro i hi
      simp at hi
    · simp only [Option.some.injEq, Prod.mk.injEq] at h
      obtain ⟨h1, h2⟩ := h
      subst h1
      intro i hi
      simp at hi
    · rename_i r heq
      split at h
      · simp only [Option.some.injEq, Prod.mk.injEq] at h
        obtain ⟨h1, h2⟩ := h
        subst h1
        intro i hi
        simp at hi
      · rename_i hcond
        split at h
        · simp at h
        · rename_i tr o heq2
          simp only [Option.some.injEq, Prod.mk.injEq] at h
          obtain ⟨h1, h2⟩ := h
          subst h1
          simp only [Bool.or_eq_true, Bool.not_eq_true', not_or] at hcond
          obtain ⟨hdone, hap⟩ := hcond
          intro i hi
          match i with
          | 0 =>
            refine ⟨r, heq, ?_, by simpa using hap, by simpa using hdone⟩
            have hhead := listLoop_head heq2
            cases tr with
            | nil => simp at hi
            | cons b t =>
              simp only [List.head?_cons, Option.some.injEq] at hhead
              simpa using hhead
          | j + 1 =>
            have hj : j + 1 < tr.length := by simpa using hi
            obtain ⟨r', hf, hg, hap', hd⟩ := ih heq2 j hj
            exact ⟨r', hf, hg, hap', hd⟩

/-- With auto-pagination off the loop always breaks after its first
fetch: one request, and the outcome of that single fetch. -/
lemma listLoop_single (fetch : ListDeviceSettingsPoliciesParams → FetchOutcome)
    (params : ListDeviceSettingsPoliciesParams)
    (acc : List DeviceSettingsPolicy) (n : Nat) :
    listLoop fetch false (n + 1) params acc =
      some ([params],
        match fetch params with
        | .transportErr e => .error (ApiError.transport e)
        | .decodeErr e => .error (ApiError.unmarshal e)
        | .pageOk r => .ok (acc ++ r.result, r.result_info)) := by
  rw [listLoop]
  cases fetch params <;> simp

lemma except_bind_ok {ε α β : Type} (a : α) (f : α → Except ε β) :
    (Except.ok a : Except ε α) >>= f = f a := rfl

lemma readOptBool_optJson (o : Option Bool) :
    readOptBool (some (optJson Json.bool o)) = .ok o := by
  cases o <;> rfl

lemma readOptInt_optJson (o : Option Int) :
    readOptInt (some (optJson Json.num o)) = .ok o := by
  cases o <;> rfl

lemma readOptStr_optJson (o : Option String) :
    readOptStr (some (optJson Json.str o)) = .ok o := by
  cases o <;> rfl

lemma readOptArr_optJson (o : Option (List Json)) :
    readOptArr (some (optJson Json.arr o)) = .ok o := by
  cases o <;> rfl

lemma readBool_bool (b : Bool) : readBool (some (Json.bool b)) = .ok b := rfl

/-- Marshalling `ServiceModeV2` loses nothing: unmarshalling the bytes
recovers the same struct (omitted zero fields decode back to zeros). -/
lemma serviceModeV2_decode_encode (m : ServiceModeV2) :
    ServiceModeV2.decode m.encode = .ok m := by
  rcases m with ⟨mode, port⟩
  by_cases hm : mode = "" <;> by_cases hp : port = 0 <;>
    simp [ServiceModeV2.encode, ServiceModeV2.decode, hm, hp,
      Json.lookup, Json.lookup.go, readStr, readInt] <;> rfl

lemma readOptServiceModeV2_optJson (o : Option ServiceModeV2) :
    readOptServiceModeV2 (some (optJson ServiceModeV2.encode o)) = .ok o := by
  cases o with
  | none => rfl
  | some m =>
    rcases m with ⟨mo, po⟩
    by_cases hm : mo = "" <;> by_cases hp : po = 0 <;>
      simp [optJson, readOptServiceModeV2, ServiceModeV2.encode,
        ServiceModeV2.decode, hm, hp, Json.lookup, Json.lookup.go,
        readStr, readInt, except_bind_ok]

/-- Re-encoding a decoded policy and decoding again is the identity:
no field value is lost by `DeviceSettingsPolicy`'s marshalling. -/
lemma deviceSettingsPolicy_decode_encode (p : DeviceSettingsPolicy) :
    DeviceSettingsPolicy.decode p.encode = .ok p := by
  rcases p with ⟨f1, f2, f3, f4, f5, f6, f7, f8, f9, f10, f11, f12, f13, f14,
    f15, f16, f17, f18, f19, f20, f21⟩
  simp only [DeviceSettingsPolicy.encode]
  rw [DeviceSettingsPolicy.decode]
  simp only [Json.lookup, Json.lookup.go, String.reduceEq, if_true, if_false,
    reduceIte, readOptBool_optJson, readOptInt_optJson, readOptStr_optJson,
    readOptArr_optJson, readOptServiceModeV2_optJson, readBool_bool,
    except_bind_ok]
  rfl

/-- A key occurs among an `omitempty` field's emitted pairs exactly when
the key matches and the field is present. -/
lemma mem_map_fst_optField {α : Type} {k k' : String} {enc : α → Json}
    {o : Option α} :
    k ∈ (optField k' enc o).map Prod.fst ↔ (k = k' ∧ o.isSome = true) := by
  cases o <;> simp [optField]

lemma lookup_go_append (l1 l2 : List (String × Json)) (k : String) :
    Json.lookup.go (l1 ++ l2) k =
      match Json.lookup.go l1 k with
      | some v => some v
      | none => Json.lookup.go l2 k := by
  induction l1 with
  | nil => simp [Json.lookup.go]
  | cons a rest ih =>
    obtain ⟨k', v⟩ := a
    by_cases h : k = k' <;> simp [Json.lookup.go, h, ih]

lemma lookup_go_optField {α : Type} (k k' : String) (enc : α → Json)
    (o : Option α) :
    Json.lookup.go (optField k' enc o) k =
      if k = k' then o.map enc else none := by
  cases o <;> by_cases h : k = k' <;> simp [optField, Json.lookup.go, h]

/-- Pair membership in an `omitempty` field's emitted pairs, the form
`simp` normalizes key membership to. -/
lemma exists_mem_optField {α : Type} {k k' : String} {enc : α → Json}
    {o : Option α} :
    (∃ x, (k, x) ∈ optField k' enc o) ↔ (k = k' ∧ o.isSome = true) := by
  cases o <;> simp [optField]

/-- C3 (counterexample): the claim says the encoding of a request with
only `name` and `enabled` set contains no other field, but the encoded
body of `nameEnabledOnlyRequest` also carries `exclude_office_ips`
(serialized as `null` although the field is absent), because that
field's json tag has no `omitempty`. -/
theorem deviceSettingsPolicyRequest_encode_keeps_exclude_office_ips :
    nameEnabledOnlyRequest.excludeOfficeIps = none ∧
    (DeviceSettingsPolicyRequest.encode nameEnabledOnlyRequest).keys =
      ["name", "enabled", "exclude_office_ips"] ∧
    (DeviceSettingsPolicyRequest.encode nameEnabledOnlyRequest).lookup
      "exclude_office_ips" = some Json.null ∧
    ¬ (∀ k, k ∈ (DeviceSettingsPolicyRequest.encode nameEnabledOnlyRequest).keys →
        k = "name" ∨ k = "enabled") := by
  refine ⟨rfl, rfl, rfl, fun h => ?_⟩
  have := h "exclude_office_ips" (by decide)
  exact absurd this (by decide)

/-- C3 (amended): marshalling a `DeviceSettingsPolicyRequest` omits
every absent `omitempty` field and emits it exactly when present (so
the wire form distinguishes omitted fields from fields set to
zero/false/empty), while `exclude_office_ips` — whose tag lacks
`omitempty` — is always emitted: as `null` when absent, as the pointed-to
boolean when present. -/
theorem deviceSettingsPolicyRequest_encode_omits_absent_fields
    (r : DeviceSettingsPolicyRequest) :
    (("disable_auto_fallback" ∈ r.encode.keys) ↔ r.disableAutoFallback.isSome = true) ∧
    (("captive_portal" ∈ r.encode.keys) ↔ r.captivePortal.isSome = true) ∧
    (("allow_mode_switch" ∈ r.encode.keys) ↔ r.allowModeSwitch.isSome = true) ∧
    (("switch_locked" ∈ r.encode.keys) ↔ r.switchLocked.isSome = true) ∧
    (("allow_updates" ∈ r.encode.keys) ↔ r.allowUpdates.isSome = true) ∧
    (("auto_connect" ∈ r.encode.keys) ↔ r.autoConnect.isSome = true) ∧
    (("allowed_to_leave" ∈ r.encode.keys) ↔ r.allowedToLeave.isSome = true) ∧
    (("support_url" ∈ r.encode.keys) ↔ r.supportURL.isSome = true) ∧
    (("service_mode_v2" ∈ r.encode.keys) ↔ r.serviceModeV2.isSome = true) ∧
    (("precedence" ∈ r.encode.keys) ↔ r.precedence.isSome = true) ∧
    (("name" ∈ r.encode.keys) ↔ r.name.isSome = true) ∧
    (("match" ∈ r.encode.keys) ↔ r.matchExpr.isSome = true) ∧
    (("enabled" ∈ r.encode.keys) ↔ r.enabled.isSome = true) ∧
    (("description" ∈ r.encode.keys) ↔ r.description.isSome = true) ∧
    ("exclude_office_ips" ∈ r.encode.keys) ∧
    (r.excludeOfficeIps = none →
      r.encode.lookup "exclude_office_ips" = some Json.null) ∧
    (∀ b, r.excludeOfficeIps = some b →
      r.encode.lookup "exclude_office_ips" = some (Json.bool b)) := by
  refine ⟨?_, ?_, ?_, ?_, ?_, ?_, ?_, ?_, ?_, ?_, ?_, ?_, ?_, ?_, ?_, ?_, ?_⟩
  case _ => simp [DeviceSettingsPolicyRequest.encode, Json.keys, mem_map_fst_optField, exists_mem_optField]
  case _ => simp [DeviceSettingsPolicyRequest.encode, Json.keys, mem_map_fst_optField, exists_mem_optField]
  case _ => simp [DeviceSettingsPolicyRequest.encode, Json.keys, mem_map_fst_optField, exists_mem_optField]
  case _ => simp [DeviceSettingsPolicyRequest.encode, Json.keys, mem_map_fst_optField, exists_mem_optField]
  case _ => simp [DeviceSettingsPolicyRequest.encode, Json.keys, mem_map_fst_optField, exists_mem_optField]
  case _ => simp [DeviceSettingsPolicyRequest.encode, Json.keys, mem_map_fst_optField, exists_mem_optField]
  case _ => simp [DeviceSettingsPolicyRequest.encode, Json.keys, mem_map_fst_optField, exists_mem_optField]
  case _ => simp [DeviceSettingsPolicyRequest.encode, Json.keys, mem_map_fst_optField, exists_mem_optField]
  case _ => simp [DeviceSettingsPolicyRequest.encode, Json.keys, mem_map_fst_optField, exists_mem_optField]
  case _ => simp [DeviceSettingsPolicyRequest.encode, Json.keys, mem_map_fst_optField, exists_mem_optField]
  case _ => simp [DeviceSettingsPolicyRequest.encode, Json.keys, mem_map_fst_optField, exists_mem_optField]
  case _ => simp [DeviceSettingsPolicyRequest.encode, Json.keys, mem_map_fst_optField, exists_mem_optField]
  case _ => simp [DeviceSettingsPolicyRequest.encode, Json.keys, mem_map_fst_optField, exists_mem_optField]
  case _ => simp [DeviceSettingsPolicyRequest.encode, Json.keys, mem_map_fst_optField, exists_mem_optField]
  case _ => simp [DeviceSettingsPolicyRequest.encode, Json.keys, mem_map_fst_optField, exists_mem_optField]
  case _ =>
    intro h
    simp [DeviceSettingsPolicyRequest.encode, Json.lookup, Json.lookup.go,
      lookup_go_append, lookup_go_optField, h, optJson]
  case _ =>
    intro b hb
    simp [DeviceSettingsPolicyRequest.encode, Json.lookup, Json.lookup.go,
      lookup_go_append, lookup_go_optField, hb, optJson]

/-- C8: decoding a policy JSON payload into `DeviceSettingsPolicy` and
re-encoding preserves every originally-present field's value — the
re-encoded body decodes back to the very same struct, and it carries
all 21 policy keys (none has `omitempty`). -/
theorem deviceSettingsPolicy_decode_reencode (j : Json) (p : DeviceSettingsPolicy)
    (_h : DeviceSettingsPolicy.decode j = .ok p) :
    DeviceSettingsPolicy.decode (DeviceSettingsPolicy.encode p) = .ok p ∧
    (DeviceSettingsPolicy.encode p).keys =
      ["service_mode_v2", "disable_auto_fallback", "fallback_domains",
       "include", "exclude", "gateway_unique_id", "support_url",
       "captive_portal", "allow_mode_switch", "switch_locked",
       "allow_updates", "auto_connect", "allowed_to_leave", "policy_id",
       "enabled", "name", "match", "precedence", "default",
       "exclude_office_ips", "description"] :=
  ⟨deviceSettingsPolicy_decode_encode p, rfl⟩

/-- C8 witness: the round trip evaluated on a concrete full payload. -/
theorem deviceSettingsPolicy_decode_reencode_witness :
    DeviceSettingsPolicy.decode (DeviceSettingsPolicy.encode fullPolicy) =
      .ok fullPolicy ∧
    (DeviceSettingsPolicy.encode fullPolicy).keys =
      ["service_mode_v2", "disable_auto_fallback", "fallback_domains",
       "include", "exclude", "gateway_unique_id", "support_url",
       "captive_portal", "allow_mode_switch", "switch_locked",
       "allow_updates", "auto_connect", "allowed_to_leave", "policy_id",
       "enabled", "name", "match", "precedence", "default",
       "exclude_office_ips", "description"] :=
  deviceSettingsPolicy_decode_reencode fullPolicyPayload fullPolicy (by rfl)

/-- C10: each single-resource operation returns, on a transport
failure, its zero-initialized result together with the transport error
passed through unchanged, and on a decode failure the zero value
together with the decode error wrapped as an unmarshal error — errors
are returned values, never thrown. -/
theorem singleResource_error_propagation :
    (∀ e, UpdateDeviceClientCertificatesZone (.error e) =
      (DeviceClientCertificatesZone.zero, some (ApiError.transport e))) ∧
    (∀ j d, DeviceClientCertificatesZone.decode j = .error d →
      UpdateDeviceClientCertificatesZone (.ok j) =
        (DeviceClientCertificatesZone.zero, some (ApiError.unmarshal d))) ∧
    (∀ e, GetDeviceClientCertificatesZone (.error e) =
      (DeviceClientCertificatesZone.zero, some (ApiError.transport e))) ∧
    (∀ j d, DeviceClientCertificatesZone.decode j = .error d →
      GetDeviceClientCertificatesZone (.ok j) =
        (DeviceClientCertificatesZone.zero, some (ApiError.unmarshal d))) ∧
    (∀ e, CreateDeviceSettingsPolicy (.error e) =
      (DeviceSettingsPolicyResponse.zero, some (ApiError.transport e))) ∧
    (∀ j d, DeviceSettingsPolicyResponse.decode j = .error d →
      CreateDeviceSettingsPolicy (.ok j) =
        (DeviceSettingsPolicyResponse.zero, some (ApiError.unmarshal d))) ∧
    (∀ e, UpdateDefaultDeviceSettingsPolicy (.error e) =
      (DeviceSettingsPolicyResponse.zero, some (ApiError.transport e))) ∧
    (∀ j d, DeviceSettingsPolicyResponse.decode j = .error d →
      UpdateDefaultDeviceSettingsPolicy (.ok j) =
        (DeviceSettingsPolicyResponse.zero, some (ApiError.unmarshal d))) ∧
    (∀ e, UpdateDeviceSettingsPolicy (.error e) =
      (DeviceSettingsPolicyResponse.zero, some (ApiError.transport e))) ∧
    (∀ j d, DeviceSettingsPolicyResponse.decode j = .error d →
      UpdateDeviceSettingsPolicy (.ok j) =
        (DeviceSettingsPolicyResponse.zero, some (ApiError.unmarshal d))) ∧
    (∀ e, DeleteDeviceSettingsPolicy (.error e) =
      (DeleteDeviceSettingsPolicyResponse.zero, some (ApiError.transport e))) ∧
    (∀ j d, DeleteDeviceSettingsPolicyResponse.decode j = .error d →
      DeleteDeviceSettingsPolicy (.ok j) =
        (DeleteDeviceSettingsPolicyResponse.zero, some (ApiError.unmarshal d))) ∧
    (∀ e, GetDefaultDeviceSettingsPolicy (.error e) =
      (DeviceSettingsPolicyResponse.zero, some (ApiError.transport e))) ∧
    (∀ j d, DeviceSettingsPolicyResponse.decode j = .error d →
      GetDefaultDeviceSettingsPolicy (.ok j) =
        (DeviceSettingsPolicyResponse.zero, some (ApiError.unmarshal d))) ∧
    (∀ e, GetDeviceSettingsPolicy (.error e) =
      (DeviceSettingsPolicyResponse.zero, some (ApiError.transport e))) ∧
    (∀ j d, DeviceSettingsPolicyResponse.decode j = .error d →
      GetDeviceSettingsPolicy (.ok j) =
        (DeviceSettingsPolicyResponse.zero, some (ApiError.unmarshal d))) := by
  refine ⟨fun e => rfl, fun j d h => ?_, fun e => rfl, fun j d h => ?_,
    fun e => rfl, fun j d h => ?_, fun e => rfl, fun j d h => ?_,
    fun e => rfl, fun j d h => ?_, fun e => rfl, fun j d h => ?_,
    fun e => rfl, fun j d h => ?_, fun e => rfl, fun j d h => ?_⟩
  all_goals
    simp [UpdateDeviceClientCertificatesZone, GetDeviceClientCertificatesZone,
      CreateDeviceSettingsPolicy, UpdateDefaultDeviceSettingsPolicy,
      UpdateDeviceSettingsPolicy, DeleteDeviceSettingsPolicy,
      GetDefaultDeviceSettingsPolicy, GetDeviceSettingsPolicy,
      singleRequest, h]

/-- C10 witness: a transport failure and a decode failure evaluated on
each operation. -/
theorem singleResource_error_propagation_witness :
    UpdateDeviceClientCertificatesZone (.error "timeout") =
      (DeviceClientCertificatesZone.zero, some (ApiError.transport "timeout")) ∧
    UpdateDeviceClientCertificatesZone (.ok (Json.num 3)) =
      (DeviceClientCertificatesZone.zero, some (ApiError.unmarshal
        "cannot unmarshal into Go value of type DeviceClientCertificatesZone")) ∧
    GetDeviceClientCertificatesZone (.ok (Json.num 3)) =
      (DeviceClientCertificatesZone.zero, some (ApiError.unmarshal
        "cannot unmarshal into Go value of type DeviceClientCertificatesZone")) ∧
    CreateDeviceSettingsPolicy (.error "timeout") =
      (DeviceSettingsPolicyResponse.zero, some (ApiError.transport "timeout")) ∧
    UpdateDefaultDeviceSettingsPolicy (.ok (Json.num 3)) =
      (DeviceSettingsPolicyResponse.zero, some (ApiError.unmarshal
        "cannot unmarshal into Go value of type DeviceSettingsPolicyResponse")) ∧
    UpdateDeviceSettingsPolicy (.ok (Json.num 3)) =
      (DeviceSettingsPolicyResponse.zero, some (ApiError.unmarshal
        "cannot unmarshal into Go value of type DeviceSettingsPolicyResponse")) ∧
    DeleteDeviceSettingsPolicy (.ok (Json.num 3)) =
      (DeleteDeviceSettingsPolicyResponse.zero, some (ApiError.unmarshal
        "cannot unmarshal into Go value of type DeleteDeviceSettingsPolicyResponse")) ∧
    GetDefaultDeviceSettingsPolicy (.error "dns failure") =
      (DeviceSettingsPolicyResponse.zero, some (ApiError.transport "dns failure")) ∧
    GetDeviceSettingsPolicy (.ok (Json.num 3)) =
      (DeviceSettingsPolicyResponse.zero, some (ApiError.unmarshal
        "cannot unmarshal into Go value of type DeviceSettingsPolicyResponse")) :=
  ⟨singleResource_error_propagation.1 "timeout",
   singleResource_error_propagation.2.1 (Json.num 3) _ rfl,
   singleResource_error_propagation.2.2.2.1 (Json.num 3) _ rfl,
   singleResource_error_propagation.2.2.2.2.1 "timeout",
   singleResource_error_propagation.2.2.2.2.2.2.2.1 (Json.num 3) _ rfl,
   singleResource_error_propagation.2.2.2.2.2.2.2.2.2.1 (Json.num 3) _ rfl,
   singleResource_error_propagation.2.2.2.2.2.2.2.2.2.2.2.1 (Json.num 3) _ rfl,
   singleResource_error_propagation.2.2.2.2.2.2.2.2.2.2.2.2.1 "dns failure",
   singleResource_error_propagation.2.2.2.2.2.2.2.2.2.2.2.2.2.2.2 (Json.num 3) _ rfl⟩

/-- C1: with `page >= 1` or `per_page >= 1`, auto-pagination is
disabled and exactly one request is issued, whose params are the
caller's page and per_page, except that per_page is defaulted to the
constant 20 when it was below 1. -/
theorem listDeviceSettingsPolicies_single_page_mode
    (server : String → ListDeviceSettingsPoliciesParams → FetchOutcome)
    (accountID : String) (params : ListDeviceSettingsPoliciesParams)
    (fuel : Nat)
    (hset : 1 ≤ params.resultInfo.page ∨ 1 ≤ params.resultInfo.per_page)
    (hfuel : 1 ≤ fuel) :
    autoPaginateFor params = false ∧
    (initialListParams params).resultInfo.page = params.resultInfo.page ∧
    (initialListParams params).resultInfo.per_page =
      (if params.resultInfo.per_page < 1 then
        listDeviceSettingsPoliciesDefaultPageSize
       else params.resultInfo.per_page) ∧
    ∃ out, ListDeviceSettingsPolicies server accountID params fuel =
      some ([initialListParams params], out) := by
  have hap : autoPaginateFor params = false := by
    unfold autoPaginateFor
    rw [if_pos (Or.symm hset)]
  refine ⟨hap, ?_, ?_, ?_⟩
  · unfold initialListParams
    split <;> rfl
  · unfold initialListParams
    split <;> rfl
  · obtain ⟨n, rfl⟩ : ∃ n, fuel = n + 1 := ⟨fuel - 1, by omega⟩
    rw [ListDeviceSettingsPolicies, hap, listLoop_single]
    exact ⟨_, rfl⟩

/-- C1 witness: a caller-set page and per_page on a concrete server. -/
theorem listDeviceSettingsPolicies_single_page_mode_witness :
    autoPaginateFor singlePageParams = false ∧
    (initialListParams singlePageParams).resultInfo.page =
      singlePageParams.resultInfo.page ∧
    (initialListParams singlePageParams).resultInfo.per_page =
      (if singlePageParams.resultInfo.per_page < 1 then
        listDeviceSettingsPoliciesDefaultPageSize
       else singlePageParams.resultInfo.per_page) ∧
    ∃ out, ListDeviceSettingsPolicies constantServer "acct1" singlePageParams 1 =
      some ([initialListParams singlePageParams], out) :=
  listDeviceSettingsPolicies_single_page_mode constantServer "acct1"
    singlePageParams 1 (Or.inl (by decide)) (by decide)

/-- C2: with neither `page >= 1` nor `per_page >= 1`, auto-pagination
is on with per_page defaulted to 20, and a successful run returns the
fetched pages' items concatenated in request order (so the aggregate
count is the sum of the per-page counts), having stopped at a page
whose number reached total_pages. -/
theorem listDeviceSettingsPolicies_auto_pagination
    (server : String → ListDeviceSettingsPoliciesParams → FetchOutcome)
    (accountID : String) (params : ListDeviceSettingsPoliciesParams)
    (fuel : Nat) (trace : List ListDeviceSettingsPoliciesParams)
    (pols : List DeviceSettingsPolicy) (last : ResultInfo)
    (hpage : params.resultInfo.page < 1)
    (hper : params.resultInfo.per_page < 1)
    (hrun : ListDeviceSettingsPolicies server accountID params fuel =
      some (trace, .ok (pols, last))) :
    autoPaginateFor params = true ∧
    (initialListParams params).resultInfo.per_page =
      listDeviceSettingsPoliciesDefaultPageSize ∧
    pols = (trace.map (pageItems (server (listURI accountID)))).flatten ∧
    pols.length =
      (trace.map fun p => (pageItems (server (listURI accountID)) p).length).sum ∧
    ∃ p r, trace.getLast? = some p ∧
      server (listURI accountID) p = .pageOk r ∧
      r.result_info.total_pages < r.result_info.page + 1 := by
  have hap : autoPaginateFor params = true := by
    unfold autoPaginateFor
    rw [if_neg]
    push_neg
    constructor <;> omega
  rw [ListDeviceSettingsPolicies] at hrun
  have hitems := listLoop_items hrun
  have hflat : pols = (trace.map (pageItems (server (listURI accountID)))).flatten := by
    simpa using hitems
  refine ⟨hap, ?_, hflat, ?_, ?_⟩
  · unfold initialListParams
    rw [if_pos hper]
  · rw [hflat]
    simp [List.length_flatten, List.map_map, Function.comp_def]
  · obtain ⟨p, r, h1, h2, h3, h4⟩ := listLoop_last_ok hrun
    rw [hap] at h4
    simp only [Bool.not_true, Bool.or_false] at h4
    refine ⟨p, r, h1, h2, ?_⟩
    simpa [ResultInfo.Done, ResultInfo.Next] using h4

/-- C2 witness: a two-page account aggregates both pages' single
policies, ending on the page that reached total_pages. -/
theorem listDeviceSettingsPolicies_auto_pagination_witness :
    autoPaginateFor autoParams = true ∧
    (initialListParams autoParams).resultInfo.per_page =
      listDeviceSettingsPoliciesDefaultPageSize ∧
    [DeviceSettingsPolicy.zero, DeviceSettingsPolicy.zero] =
      (List.map (pageItems (twoPageServer (listURI "acct1")))
        [autoFirstParams, twoPageSecondParams]).flatten ∧
    ([DeviceSettingsPolicy.zero, DeviceSettingsPolicy.zero] : List _).length =
      (List.map (fun p => (pageItems (twoPageServer (listURI "acct1")) p).length)
        [autoFirstParams, twoPageSecondParams]).sum ∧
    ∃ p r, ([autoFirstParams, twoPageSecondParams] :
        List ListDeviceSettingsPoliciesParams).getLast? = some p ∧
      twoPageServer (listURI "acct1") p = .pageOk r ∧
      r.result_info.total_pages < r.result_info.page + 1 :=
  listDeviceSettingsPolicies_auto_pagination twoPageServer "acct1" autoParams 3
    _ _ _ (by decide) (by decide) rfl

/-- C4: a run that ends in an error returns that error alone — no
policy list and no result info — where the error is the failing last
fetch's transport error passed through or its decode error wrapped as
an unmarshal error, while every earlier request had decoded
successfully. -/
theorem listDeviceSettingsPolicies_error_aborts
    (server : String → ListDeviceSettingsPoliciesParams → FetchOutcome)
    (accountID : String) (params : ListDeviceSettingsPoliciesParams)
    (fuel : Nat) (trace : List ListDeviceSettingsPoliciesParams) (e : ApiError)
    (hrun : ListDeviceSettingsPolicies server accountID params fuel =
      some (trace, .error e)) :
    (∃ p, trace.getLast? = some p ∧
      ((∃ s, server (listURI accountID) p = .transportErr s ∧
         e = ApiError.transport s) ∨
       (∃ s, server (listURI accountID) p = .decodeErr s ∧
         e = ApiError.unmarshal s))) ∧
    ∀ i (hi : i + 1 < trace.length), ∃ r,
      server (listURI accountID) (trace.get ⟨i, Nat.lt_of_succ_lt hi⟩) =
        .pageOk r := by
  rw [ListDeviceSettingsPolicies] at hrun
  refine ⟨listLoop_error hrun, fun i hi => ?_⟩
  obtain ⟨r, h1, _⟩ := listLoop_chain hrun i hi
  exact ⟨r, h1⟩

/-- C4 witness: a transport failure on page 2 of 3 surfaces the error
with no partial aggregate. -/
theorem listDeviceSettingsPolicies_error_aborts_witness :
    (∃ p, ([autoFirstParams, failingSecondParams] :
        List ListDeviceSettingsPoliciesParams).getLast? = some p ∧
      ((∃ s, failingServer (listURI "acct1") p = .transportErr s ∧
         ApiError.transport "connection reset" = ApiError.transport s) ∨
       (∃ s, failingServer (listURI "acct1") p = .decodeErr s ∧
         ApiError.transport "connection reset" = ApiError.unmarshal s))) ∧
    ∀ i (hi : i + 1 < ([autoFirstParams, failingSecondParams] :
        List ListDeviceSettingsPoliciesParams).length), ∃ r,
      failingServer (listURI "acct1")
        (([autoFirstParams, failingSecondParams] :
          List ListDeviceSettingsPoliciesParams).get
            ⟨i, Nat.lt_of_succ_lt hi⟩) = .pageOk r :=
  listDeviceSettingsPolicies_error_aborts failingServer "acct1" autoParams 3
    _ _ rfl

/-- C5: on success the returned `ResultInfo` is exactly the
`result_info` block of the last fetched page's response envelope,
unmodified. -/
theorem listDeviceSettingsPolicies_returns_last_result_info
    (server : String → ListDeviceSettingsPoliciesParams → FetchOutcome)
    (accountID : String) (params : ListDeviceSettingsPoliciesParams)
    (fuel : Nat) (trace : List ListDeviceSettingsPoliciesParams)
    (pols : List DeviceSettingsPolicy) (last : ResultInfo)
    (hrun : ListDeviceSettingsPolicies server accountID params fuel =
      some (trace, .ok (pols, last))) :
    ∃ p r, trace.getLast? = some p ∧
      server (listURI accountID) p = .pageOk r ∧ last = r.result_info := by
  rw [ListDeviceSettingsPolicies] at hrun
  obtain ⟨p, r, h1, h2, h3, _⟩ := listLoop_last_ok hrun
  exact ⟨p, r, h1, h2, h3⟩

/-- C5 witness: the two-page run returns page 2's result_info. -/
theorem listDeviceSettingsPolicies_returns_last_result_info_witness :
    ∃ p r, ([autoFirstParams, twoPageSecondParams] :
        List ListDeviceSettingsPoliciesParams).getLast? = some p ∧
      twoPageServer (listURI "acct1") p = .pageOk r ∧
      ({ page := 2, per_page := 20, count := 1, total_count := 2,
         total_pages := 2 } : ResultInfo) = r.result_info :=
  listDeviceSettingsPolicies_returns_last_result_info twoPageServer "acct1"
    autoParams 3 _ _ _ rfl

/-- C6: a `per_page` below 1 (0, unset, or negative) is not an error
and produces the very same run as `per_page = 0` (the unset zero
value): the whole call result is equal, the defaulted per_page is 20,
and the first request carries per_page 20. -/
theorem listDeviceSettingsPolicies_per_page_below_one_is_unset
    (server : String → ListDeviceSettingsPoliciesParams → FetchOutcome)
    (accountID : String) (fuel : Nat) (ri : ResultInfo)
    (h : ri.per_page < 1) :
    ListDeviceSettingsPolicies server accountID { resultInfo := ri } fuel =
      ListDeviceSettingsPolicies server accountID
        { resultInfo := { ri with per_page := 0 } } fuel ∧
    (initialListParams { resultInfo := ri }).resultInfo.per_page =
      listDeviceSettingsPoliciesDefaultPageSize ∧
    ∀ trace out,
      ListDeviceSettingsPolicies server accountID { resultInfo := ri } fuel =
        some (trace, out) →
      trace.head? = some { resultInfo :=
        { ri with per_page := listDeviceSettingsPoliciesDefaultPageSize } } := by
  have hap : autoPaginateFor { resultInfo := ri } =
      autoPaginateFor { resultInfo := { ri with per_page := 0 } } := by
    unfold autoPaginateFor
    by_cases hp : 1 ≤ ri.page
    · rw [if_pos (Or.inr hp), if_pos (Or.inr hp)]
    · have h1 : ¬(1 ≤ ri.per_page ∨ 1 ≤ ri.page) := by
        push_neg
        exact ⟨by omega, by omega⟩
      have h2 : ¬((1 : Int) ≤ 0 ∨ 1 ≤ ri.page) := by
        push_neg
        exact ⟨by omega, by omega⟩
      rw [if_neg h1, if_neg h2]
  have hinit : initialListParams { resultInfo := ri } =
      initialListParams { resultInfo := { ri with per_page := 0 } } := by
    unfold initialListParams
    rw [if_pos h, if_pos (show (0 : Int) < 1 by norm_num)]
  refine ⟨?_, ?_, ?_⟩
  · rw [ListDeviceSettingsPolicies, ListDeviceSettingsPolicies, hap, hinit]
  · unfold initialListParams
    rw [if_pos h]
  · intro trace out hrun
    rw [ListDeviceSettingsPolicies] at hrun
    have hh := listLoop_head hrun
    rw [hh]
    unfold initialListParams
    rw [if_pos h]

/-- C6 witness: `per_page = -5` behaves as `per_page = 0` and sends
per_page 20. -/
theorem listDeviceSettingsPolicies_per_page_below_one_is_unset_witness :
    ListDeviceSettingsPolicies twoPageServer "acct1" negPerPageParams 3 =
      ListDeviceSettingsPolicies twoPageServer "acct1" autoParams 3 ∧
    (initialListParams negPerPageParams).resultInfo.per_page =
      listDeviceSettingsPoliciesDefaultPageSize ∧
    ∀ trace out,
      ListDeviceSettingsPolicies twoPageServer "acct1" negPerPageParams 3 =
        some (trace, out) →
      trace.head? = some autoFirstParams :=
  listDeviceSettingsPolicies_per_page_below_one_is_unset twoPageServer "acct1" 3
    negPerPageParams.resultInfo (by decide)

/-- C7: in auto-pagination mode an empty page does not stop the loop —
when the first response has zero items but a non-terminal cursor, the
run issues at least a second request; only a terminal cursor (or
single-page mode) ends the loop. -/
theorem listDeviceSettingsPolicies_empty_page_continues
    (server : String → ListDeviceSettingsPoliciesParams → FetchOutcome)
    (accountID : String) (params : ListDeviceSettingsPoliciesParams)
    (fuel : Nat) (trace : List ListDeviceSettingsPoliciesParams)
    (out : Except ApiError (List DeviceSettingsPolicy × ResultInfo))
    (r : ListDeviceSettingsPoliciesResponse)
    (hap : autoPaginateFor params = true)
    (hrun : ListDeviceSettingsPolicies server accountID params fuel =
      some (trace, out))
    (hfirst : server (listURI accountID) (initialListParams params) = .pageOk r)
    (_hempty : r.result = [])
    (hnotdone : r.result_info.Next.Done = false) :
    2 ≤ trace.length := by
  rw [ListDeviceSettingsPolicies, hap] at hrun
  cases fuel with
  | zero => simp [listLoop] at hrun
  | succ n =>
    rw [listLoop, hfirst] at hrun
    simp only [hnotdone, Bool.not_true, Bool.or_self, Bool.false_eq_true,
      if_false] at hrun
    split at hrun
    · simp at hrun
    · rename_i tr o heq2
      simp only [Option.some.injEq, Prod.mk.injEq] at hrun
      obtain ⟨h1, h2⟩ := hrun
      have hne := listLoop_trace_ne_nil heq2
      have hpos : 0 < tr.length := List.length_pos.mpr hne
      rw [← h1]
      simp only [List.length_cons]
      omega

/-- C7 witness: an empty first page with total_pages = 2 still leads to
a second request. -/
theorem listDeviceSettingsPolicies_empty_page_continues_witness :
    2 ≤ ([autoFirstParams, emptySecondParams] :
      List ListDeviceSettingsPoliciesParams).length :=
  listDeviceSettingsPolicies_empty_page_continues emptyPageServer "acct1"
    autoParams 3 _ _ _ rfl rfl rfl rfl rfl

/-- C9: every request after the first carries exactly the previous
response's result_info advanced by Next() — the loop overwrites the
whole embedded ResultInfo of the params, so the follow-up request's
per_page is the response's per_page and its page is the response's
page + 1. -/
theorem listDeviceSettingsPolicies_cursor_overwrites_params
    (server : String → ListDeviceSettingsPoliciesParams → FetchOutcome)
    (accountID : String) (params : ListDeviceSettingsPoliciesParams)
    (fuel : Nat) (trace : List ListDeviceSettingsPoliciesParams)
    (out : Except ApiError (List DeviceSettingsPolicy × ResultInfo))
    (hrun : ListDeviceSettingsPolicies server accountID params fuel =
      some (trace, out)) :
    ∀ i (hi : i + 1 < trace.length), ∃ r,
      server (listURI accountID) (trace.get ⟨i, Nat.lt_of_succ_lt hi⟩) =
        .pageOk r ∧
      trace.get ⟨i + 1, hi⟩ = { resultInfo := r.result_info.Next } ∧
      (trace.get ⟨i + 1, hi⟩).resultInfo.per_page = r.result_info.per_page ∧
      (trace.get ⟨i + 1, hi⟩).resultInfo.page = r.result_info.page + 1 := by
  rw [ListDeviceSettingsPolicies] at hrun
  intro i hi
  obtain ⟨r, h1, h2, _, _⟩ := listLoop_chain hrun i hi
  refine ⟨r, h1, h2, ?_, ?_⟩ <;> rw [h2] <;> rfl

/-- C9 witness: on the two-page run, request 2's params are page 1's
result_info advanced by Next(), per_page included. -/
theorem listDeviceSettingsPolicies_cursor_overwrites_params_witness :
    ∃ r, twoPageServer (listURI "acct1")
        (([autoFirstParams, twoPageSecondParams] :
          List ListDeviceSettingsPoliciesParams).get ⟨0, by decide⟩) =
        .pageOk r ∧
      ([autoFirstParams, twoPageSecondParams] :
        List ListDeviceSettingsPoliciesParams).get ⟨1, by decide⟩ =
        { resultInfo := r.result_info.Next } ∧
      (([autoFirstParams, twoPageSecondParams] :
        List ListDeviceSettingsPoliciesParams).get
          ⟨1, by decide⟩).resultInfo.per_page = r.result_info.per_page ∧
      (([autoFirstParams, twoPageSecondParams] :
        List ListDeviceSettingsPoliciesParams).get
          ⟨1, by decide⟩).resultInfo.page = r.result_info.page + 1 :=
  listDeviceSettingsPolicies_cursor_overwrites_params twoPageServer "acct1"
    autoParams 3 _ _ rfl 0 (by decide)

/-- C3 witness: the amended omit-vs-emit rule evaluated on the
name-and-enabled-only request. -/
theorem deviceSettingsPolicyRequest_encode_omits_absent_fields_witness :
    ("name" ∈ nameEnabledOnlyRequest.encode.keys ↔
      nameEnabledOnlyRequest.name.isSome = true) ∧
    ("support_url" ∈ nameEnabledOnlyRequest.encode.keys ↔
      nameEnabledOnlyRequest.supportURL.isSome = true) ∧
    ("exclude_office_ips" ∈ nameEnabledOnlyRequest.encode.keys) ∧
    nameEnabledOnlyRequest.encode.lookup "exclude_office_ips" =
      some Json.null :=
  ⟨(deviceSettingsPolicyRequest_encode_omits_absent_fields
      nameEnabledOnlyRequest).2.2.2.2.2.2.2.2.2.2.1,
   (deviceSettingsPolicyRequest_encode_omits_absent_fields
      nameEnabledOnlyRequest).2.2.2.2.2.2.2.1,
   (deviceSettingsPolicyRequest_encode_omits_absent_fields
      nameEnabledOnlyRequest).2.2.2.2.2.2.2.2.2.2.2.2.2.2.1,
   (deviceSettingsPolicyRequest_encode_omits_absent_fields
      nameEnabledOnlyRequest).2.2.2.2.2.2.2.2.2.2.2.2.2.2.2.1 rfl⟩
